import Mathlib

/-!
Verification of the session orchestrator of the groupgamingbot repository.

The repository ships two independent game engines:
 - src/bot.py keeps each chat's session as a plain dict in the process-wide
   `active_games` map (keyed by chat id) and implements quiz, wordchain,
   guessing and number-guessing directly on that dict;
 - src/main.py together with src/games.py keeps class-based `BaseGame`
   instances (WordChainGame, GuessingGame, WordCorrectionGame) in its own
   `active_games` map and persists them through src/database.py.

Both engines are embedded below.  Python strings are modelled as `List Char`
(ASCII behaviour of lower/upper/isalpha; the games only ever compare and slice
words), timestamps as `Int`, user ids as `Int`.  Fallible paths are `Option`.
Transient fields that hold no data (the `timer_task` asyncio handle) are not
part of the state.
-/

/-! ### Python string primitives -/

/-- Default whitespace stripped by Python `str.strip` (ASCII subset). -/
def pyIsSpace (c : Char) : Bool :=
  c == ' ' || c == '\t' || c == '\n' || c == '\r' || c == '\x0b' || c == '\x0c'

/-- Python `str.strip()`. -/
def pyStrip (s : List Char) : List Char :=
  ((s.dropWhile pyIsSpace).reverse.dropWhile pyIsSpace).reverse

/-- Python `str.lower()` (ASCII). -/
def pyLower (s : List Char) : List Char := s.map Char.toLower

/-- Python `str.upper()` (ASCII). -/
def pyUpper (s : List Char) : List Char := s.map Char.toUpper

/-- Python `str.isalpha()`: false on the empty string. -/
def pyIsAlpha (s : List Char) : Bool := !s.isEmpty && s.all Char.isAlpha

/-- Python `s.startswith(c)` for a one-character prefix `c`. -/
def pyStartsWithChar (s : List Char) (c : Char) : Bool :=
  match s with
  | [] => false
  | x :: _ => x == c

/-! ### The bot.py engine: session dict -/

/-- One entry of a bot.py session's `players` list: the dict
`{"user_id": ..., "username": ...}` appended by the join-button handler
(bot.py line 405).  This engine keeps no per-player score in the session. -/
structure BPlayer where
  userId : Int
  username : String
deriving DecidableEq

/-- The quiz round's `current_question` sub-dict (bot.py lines 542-555):
either a poll (with Telegram poll id and correct option index) or a free-text
question; `noneYet` is the empty dict set at quiz start (line 504). -/
inductive BQuestion where
  | noneYet
  | poll (pollId : Nat) (correctOptionId : Nat)
  | text (correctAnswer : List Char)
deriving DecidableEq

/-- A bot.py session dict from `active_games`.  Keys the game-type-specific
starters add later are carried with inert defaults from creation; the
`timer_task` asyncio handle is transient and not modelled. -/
structure GState where
  gameType : String
  players : List BPlayer
  status : String
  currentRound : Nat
  lastActivity : Int
  /-- wordchain: `current_word`, always stored lowercase. -/
  currentWord : List Char
  /-- wordchain: `turn_index`. -/
  turnIndex : Nat
  /-- quiz: `current_question`. -/
  currentQuestion : BQuestion
  /-- quiz: `answered_this_round`. -/
  answeredThisRound : Bool
  /-- number guessing: `secret_number`. -/
  secretNumber : Int
  /-- number guessing: `guesses_made`, a dict user id to count. -/
  guessesMade : List (Int × Nat)
deriving DecidableEq

/-- Membership test `user.id in [p["user_id"] for p in players]`. -/
def isPlayerIn (ps : List BPlayer) (uid : Int) : Bool :=
  ps.any (fun p => p.userId == uid)

/-- Python dict read `guesses_made.get(str(uid), 0)`. -/
def lookupCount (m : List (Int × Nat)) (uid : Int) : Nat :=
  match m.find? (fun e => e.1 == uid) with
  | some e => e.2
  | none => 0

/-- Python dict write `guesses_made[str(uid)] = v`. -/
def setCount (m : List (Int × Nat)) (uid : Int) (v : Nat) : List (Int × Nat) :=
  if m.any (fun e => e.1 == uid) then
    m.map (fun e => if e.1 == uid then (uid, v) else e)
  else m ++ [(uid, v)]

/-! ### bot.py wordchain handler -/

/-- Outcome of one call of `handle_wordchain_answer`, distinguishing the code
paths of bot.py lines 682-757: the early returns, the accepted branch, the
elimination branch with the session kept, and the elimination branch that
deletes the session because fewer than 2 players remain. -/
inductive WCOutcome where
  | ignored
  | wrongTurn
  | accepted (g : GState)
  | eliminated (g : GState)
  | ended
deriving DecidableEq

def isAccepted : WCOutcome → Bool
  | .accepted _ => true
  | _ => false

/-- Turn-index fixup of bot.py lines 748-749 and 787-788: if the index fell
out of bounds after a removal, reset it to 0. -/
def wcFixIndex (idx len : Nat) : Nat := if idx ≥ len then 0 else idx

/-- The elimination filter of bot.py line 731: drop every entry whose
`user_id` equals the answering user's id. -/
def removedPlayers (ps : List BPlayer) (uid : Int) : List BPlayer :=
  ps.filter (fun p => p.userId != uid)

/-- bot.py `handle_wordchain_answer` (lines 682-757).  `text` is the raw
message text; the handler lowercases and strips it (line 701).  The `none`
arms of the two list lookups mark places where Python would raise IndexError
(`players[turn_index]` on an out-of-range index, `current_word[-1]` on the
empty word); live wordchain sessions never reach them. -/
def handle_wordchain_answer (g : GState) (uid : Int) (text : List Char) (now : Int) :
    WCOutcome :=
  if g.gameType != "wordchain" || g.status != "in_progress" then .ignored
  else if g.players.isEmpty then .ignored
  else
    match g.players[g.turnIndex]? with
    | none => .ignored
    | some currentPlayer =>
      if uid != currentPlayer.userId then .wrongTurn
      else
        match g.currentWord.getLast? with
        | none => .ignored
        | some lastRaw =>
          let lastChar := lastRaw.toLower
          let userWord := pyLower (pyStrip text)
          if pyStartsWithChar userWord lastChar && decide (userWord.length > 1)
              && pyIsAlpha userWord then
            .accepted { g with currentWord := userWord,
                               turnIndex := (g.turnIndex + 1) % g.players.length,
                               lastActivity := now }
          else
            let newPlayers := removedPlayers g.players uid
            if newPlayers.length < 2 then .ended
            else
              .eliminated { g with players := newPlayers,
                                   turnIndex := wcFixIndex g.turnIndex newPlayers.length,
                                   lastActivity := now }

/-- The acceptance condition of bot.py line 704 in isolation:
`user_word.startswith(last_char_of_prev_word) and len(user_word) > 1 and
user_word.isalpha()` where `user_word = text.strip().lower()` and
`last_char_of_prev_word = current_word[-1].lower()`. -/
def botWordchainAccept (currentWord text : List Char) : Bool :=
  match currentWord.getLast? with
  | none => false
  | some c =>
    let userWord := pyLower (pyStrip text)
    pyStartsWithChar userWord c.toLower && decide (userWord.length > 1)
      && pyIsAlpha userWord

/-- Modelled from the spec, not from source, for the claim comparison:
an answer is accepted when its first letter equals the last letter of the
current word, its length exceeds 1, it is entirely alphabetic, and it equals
the expected target word for the step. -/
def specWordchainAccept (currentWord target w : List Char) : Bool :=
  match currentWord.getLast? with
  | none => false
  | some c =>
    pyStartsWithChar w c && decide (w.length > 1) && pyIsAlpha w && w == target

/-! ### bot.py timers and remaining handlers -/

/-- bot.py `turn_timer` (lines 759-809): the state effect after the sleep.
The input is the chat's entry of `active_games` (`none` when the chat no
longer has a session); the result is that entry afterwards (`none` when the
callback deleted the session).  Python `players.pop(turn_index)` raises on an
out-of-range index; `List.eraseIdx` instead leaves the list unchanged there —
live sessions keep the index in bounds (see the turn-index invariant below).
In the guessing branch the follow-up `send_next_guess_item` task that the
callback schedules is a separate callback, not part of this one. -/
def turn_timer (s : Option GState) (gameType : String) (now : Int) : Option GState :=
  match s with
  | none => none
  | some g =>
    if g.status == "in_progress" && g.gameType == gameType then
      if gameType == "wordchain" then
        if g.players.isEmpty then some g
        else
          let newPlayers := g.players.eraseIdx g.turnIndex
          if newPlayers.length < 2 then none
          else
            some { g with players := newPlayers,
                          turnIndex := wcFixIndex g.turnIndex newPlayers.length,
                          lastActivity := now }
      else if gameType == "guessing" then
        some { g with currentRound := g.currentRound + 1, lastActivity := now }
      else some g
    else some g

/-- bot.py `start_game_countdown` (lines 428-459), the body that runs after the
60-second sleep.  Returns the list of session snapshots that
`save_game_state_to_db` persists during the body, in order, paired with the
chat's in-memory session afterwards (`none` means deleted).  The dispatch to
the game-specific starters (`start_quiz_game` etc., reached only when players
joined) happens after this body's mutations and is modelled separately. -/
def start_game_countdown (s : Option GState) : List GState × Option GState :=
  match s with
  | none => ([], none)
  | some g =>
    if g.status == "waiting_for_players" then
      let g1 := { g with status := "in_progress" }
      if g1.players.length == 0 then ([g1], none)
      else ([g1], some g1)
    else ([], some g)

/-- bot.py `button_handler`, branch `start_game_` (lines 369-396), acting on
the whole `active_games` map.  The returned flag is true when the conflict
message ("pehle se hi ek game chal raha hai") was sent and nothing changed.
Keys that the game starters add later carry inert defaults. -/
def bot_start_game (m : Int → Option GState) (chatId : Int) (gameType : String)
    (now : Int) : (Int → Option GState) × Bool :=
  match m chatId with
  | some _ => (m, true)
  | none =>
    let g : GState :=
      { gameType := gameType, players := [], status := "waiting_for_players",
        currentRound := 0, lastActivity := now, currentWord := [],
        turnIndex := 0, currentQuestion := .noneYet, answeredThisRound := false,
        secretNumber := 0, guessesMade := [] }
    (fun c => if c == chatId then some g else m c, false)

/-- bot.py `button_handler`, branch `join_game_` (lines 398-424).  The
duplicate test (line 406) is `player_data not in players` on the whole
`{"user_id", "username"}` dict, so two entries of one user id with different
usernames are distinct.  Returned flag: true when the player was appended,
false when the join was refused (already present, or the session is no longer
waiting). -/
def bot_join (g : GState) (uid : Int) (username : String) : GState × Bool :=
  if g.status != "waiting_for_players" then (g, false)
  else if g.players.any (fun p => p.userId == uid && p.username == username) then
    (g, false)
  else
    ({ g with players := g.players ++ [{ userId := uid, username := username }] }, true)

/-- bot.py `handle_number_guess` (lines 921-968).  `parsed` is the result of
`int(update.message.text)` (`none` when it raises ValueError).  Result: the
chat's session afterwards (`none` when the win deleted it) and the points
awarded on a win. -/
def handle_number_guess (g : GState) (uid : Int) (parsed : Option Int) (now : Int) :
    Option GState × Option Int :=
  if g.gameType != "number_guessing" || g.status != "in_progress" then (some g, none)
  else if !isPlayerIn g.players uid then (some g, none)
  else
    match parsed with
    | none => (some g, none)
    | some guess =>
      if ¬(1 ≤ guess ∧ guess ≤ 100) then (some g, none)
      else
        let newCount := lookupCount g.guessesMade uid + 1
        let g1 := { g with guessesMade := setCount g.guessesMade uid newCount,
                           lastActivity := now }
        if guess == g.secretNumber then
          (none, some (max 10 (100 - (newCount : Int) * 5)))
        else (some g1, none)

/-- The poll-answer match test of bot.py lines 611-613: the session is a quiz,
in progress, its current question is a poll, and that poll's id equals the
voted poll's id. -/
def pollMatches (g : GState) (pid : Nat) : Bool :=
  g.gameType == "quiz" && g.status == "in_progress" &&
    (match g.currentQuestion with
     | .poll p _ => p == pid
     | _ => false)

/-- bot.py `handle_poll_answer` (lines 604-638): iterate over `active_games`
in order; at the first session matching the vote's poll id, stop — returning
unchanged when the voter is not a joined player, when the round is already
answered, or when the vote does not select the correct option, and otherwise
marking the round answered and refreshing the activity time.  Sessions other
than the first match are never touched (the handler returns or breaks). -/
def handle_poll_answer (games : List (Int × GState)) (uid : Int) (pid : Nat)
    (optionIds : List Nat) (now : Int) : List (Int × GState) :=
  match games with
  | [] => []
  | (cid, g) :: rest =>
    if pollMatches g pid then
      if !isPlayerIn g.players uid then (cid, g) :: rest
      else if g.answeredThisRound then (cid, g) :: rest
      else
        match g.currentQuestion with
        | .poll _ correctId =>
          if optionIds.contains correctId then
            (cid, { g with answeredThisRound := true, lastActivity := now }) :: rest
          else (cid, g) :: rest
        | _ => (cid, g) :: rest
    else (cid, g) :: handle_poll_answer rest uid pid optionIds now

/-! ### The games.py and main.py engine -/

/-- One entry of a games.py game's `players` list:
`{"id": ..., "username": ..., "score": 0}` (games.py line 24). -/
structure PyPlayer where
  id : Int
  username : String
  score : Int
deriving DecidableEq

/-- A games.py `BaseGame` instance.  `game_class` models
`self.__class__.__name__.lower()` — the only place the instance's game type
is computed (games.py line 59); no attribute named `game_type` exists on the
classes.  GuessingGame-specific fields (`guessed_letters`, `attempts`) play
no part in the claims below and are omitted; `last_word` is the
WordChainGame extra field (games.py line 72). -/
structure PyGame where
  game_class : String
  game_id : String
  group_id : Int
  question : List Char
  answer : List Char
  players : List PyPlayer
  current_player_index : Nat
  status : String
  start_time : Int
  last_activity_time : Int
  turn_timeout : Int
  join_window_end_time : Int
  last_word : List Char
deriving DecidableEq

/-- games.py `BaseGame.__init__` (lines 9-20) as reached through one of the
subclasses: the answer is uppercased, players start empty, the join window is
60 seconds, the turn timeout 60 seconds. -/
def mkBaseGame (cls gid : String) (grp : Int) (q a : List Char) (now : Int) : PyGame :=
  { game_class := cls, game_id := gid, group_id := grp, question := q,
    answer := pyUpper a, players := [], current_player_index := 0,
    status := "waiting_for_players", start_time := now, last_activity_time := now,
    turn_timeout := 60, join_window_end_time := now + 60, last_word := [] }

/-- Python `str.lower()` on a `String` (ASCII), used by `create_game`. -/
def strLower (s : String) : String := ⟨pyLower s.data⟩

/-- games.py `create_game` (lines 138-147): the factory recognises exactly
the lowercased type strings "wordchain", "guessing" and "wordcorrection". -/
def create_game (gameType gid : String) (grp : Int) (q a : List Char) (now : Int) :
    Option PyGame :=
  let t := strLower gameType
  if t == "wordchain" then some (mkBaseGame "wordchaingame" gid grp q a now)
  else if t == "guessing" then some (mkBaseGame "guessinggame" gid grp q a now)
  else if t == "wordcorrection" then some (mkBaseGame "wordcorrectiongame" gid grp q a now)
  else none

/-- games.py `BaseGame.add_player` (lines 22-26): append only when no existing
entry has this user id; the flag reports whether the player was added. -/
def add_player (g : PyGame) (uid : Int) (username : String) : PyGame × Bool :=
  if g.players.any (fun p => p.id == uid) then (g, false)
  else
    ({ g with players := g.players ++ [{ id := uid, username := username, score := 0 }] },
     true)

/-- games.py `BaseGame.get_current_player` (lines 28-31).  Python returns
`None` for an empty list and raises IndexError on an out-of-range index with
a nonempty list; both are `none` here, the latter unreachable live. -/
def get_current_player (g : PyGame) : Option PyPlayer :=
  if g.players.isEmpty then none else g.players[g.current_player_index]?

/-- games.py `BaseGame.next_turn` (lines 33-37): advance the index modulo the
player count when there are players, otherwise do nothing. -/
def next_turn (g : PyGame) : PyGame :=
  if g.players.isEmpty then g
  else { g with current_player_index := (g.current_player_index + 1) % g.players.length }

/-- games.py `WordChainGame.is_answer_correct` (lines 74-82): the uppercased
answer must equal the stored target `answer`; once a previous word exists it
must also start with that word's last letter.  No length or alphabet check. -/
def wc_is_answer_correct (g : PyGame) (user_answer : List Char) : Bool :=
  let ua := pyUpper user_answer
  if g.last_word.isEmpty then ua == g.answer
  else
    match g.last_word.getLast? with
    | some c => pyStartsWithChar ua c && ua == g.answer
    | none => false

/-- The persisted record of games.py `BaseGame.get_game_data_for_db`
(lines 54-67).  `mongo_id` is the "_id" key.  The record carries no
`join_window_end_time`, `turn_timeout` or `last_word` key. -/
structure DbRecord where
  mongo_id : String
  group_id : Int
  game_type : String
  question : List Char
  answer : List Char
  players : List PyPlayer
  current_player_index : Nat
  status : String
  start_time : Int
  last_activity_time : Int
deriving DecidableEq

/-- games.py `BaseGame.get_game_data_for_db` (lines 54-67): the snapshot sent
to MongoDB.  Its `game_type` is the lowercased class name
("wordchaingame", "guessinggame", "wordcorrectiongame"). -/
def get_game_data_for_db (g : PyGame) : DbRecord :=
  { mongo_id := g.game_id, group_id := g.group_id, game_type := g.game_class,
    question := g.question, answer := g.answer, players := g.players,
    current_player_index := g.current_player_index, status := g.status,
    start_time := g.start_time, last_activity_time := g.last_activity_time }

/-- One iteration of the startup reload loop of main.py `run_bot`
(lines 661-711) on a stored record.  `create_game` recognises only
"wordchain"/"guessing"/"wordcorrection", so a record whose `game_type` is a
lowercased class name yields no instance ("Failed to create game instance for
loaded data").  When an instance is produced the loop copies the stored
fields — taking the defaults 0 and 30 for the `join_window_end_time` and
`turn_timeout` keys the record does not have — and then reads
`game_instance.game_type`, an attribute none of the games.py classes define:
the AttributeError is caught by the surrounding `except` and the record is
skipped.  Either way no session is restored. -/
def load_game (r : DbRecord) (now : Int) : Option PyGame :=
  match create_game r.game_type r.mongo_id r.group_id r.question r.answer now with
  | none => none
  | some g0 =>
    let _copied := { g0 with players := r.players,
                             current_player_index := r.current_player_index,
                             status := r.status,
                             join_window_end_time := 0,
                             last_activity_time := r.last_activity_time,
                             turn_timeout := 30 }
    none

/-- main.py `start_new_game` (lines 355-398) acting on this engine's
`active_games` map.  `content` is the outcome of
`fetch_game_data_from_channel` (`none` covers a missing/invalid message and a
disconnected store); an empty question or answer is falsy and also aborts.
The returned flag is true when the conflict reply ("pehle se ek game chal
raha hai") was sent and nothing changed. -/
def start_new_game (m : Int → Option PyGame) (chatId : Int) (gameType : String)
    (content : Option (List Char × List Char)) (gid : String) (now : Int) :
    (Int → Option PyGame) × Bool :=
  match m chatId with
  | some _ => (m, true)
  | none =>
    match content with
    | none => (m, false)
    | some (q, a) =>
      if q.isEmpty || a.isEmpty then (m, false)
      else
        match create_game gameType gid chatId q a now with
        | none => (m, false)
        | some g => (fun c => if c == chatId then some g else m c, false)

/-- main.py `send_game_join_alerts` (lines 157-217): the session-state effect
of one firing at time `now`.  The sub-60-second branches only send reminder
messages; the session changes exactly at expiry: with at least one player it
becomes in_progress, with none it is deleted (`none`). -/
def send_game_join_alerts (g : PyGame) (now : Int) : Option PyGame :=
  if g.status != "waiting_for_players" then some g
  else
    let timeLeft : Int := g.join_window_end_time - now
    if timeLeft ≤ 0 then
      if g.players.length ≥ 1 then
        some { g with status := "in_progress", last_activity_time := now }
      else none
    else some g

/-- main.py `check_turn_timeout` (lines 219-265).  The session is looked up
by chat id alone; `_gameId`, the game id the job was armed for, is used only
in log text and job names and never compared with the session's own id.  On a
timeout with a current player the turn is passed (`next_turn`) and the clock
reset; with no current player `end_game_logic` deletes the session
("stuck").  In all other cases the session is left as it is. -/
def check_turn_timeout (s : Option PyGame) (_gameId : String) (now : Int) :
    Option PyGame :=
  match s with
  | none => none
  | some g =>
    if g.status == "in_progress" then
      if now - g.last_activity_time ≥ g.turn_timeout then
        match get_current_player g with
        | some _ => some { next_turn g with last_activity_time := now }
        | none => none
      else some g
    else some g

/-- Score bump `current_player["score"] += 10` of main.py line 439: the
player dict is shared with the `players` list, so the list entry at the
current index is updated in place. -/
def bumpScoreAt (ps : List PyPlayer) (i : Nat) (delta : Int) : List PyPlayer :=
  match ps[i]? with
  | some p => ps.set i { p with score := p.score + delta }
  | none => ps

/-- main.py `handle_message` (lines 422-496) specialised to a WordChainGame
session (the GuessingGame-only display check of line 442 cannot fire).  Only
the current player's messages are judged; a correct answer scores 10, records
the new word and passes the turn; an incorrect answer merely passes the turn
— the player is not removed.  The guard comparison
`game.get_current_player()["id"] == user_id` is modelled through
`get_current_player`; Python would raise on a `None` current player. -/
def handle_message_wc (g : PyGame) (uid : Int) (text : List Char) (now : Int) : PyGame :=
  if g.status == "in_progress" && ((get_current_player g).map (·.id) == some uid) then
    if wc_is_answer_correct g text then
      let scored := { g with players := bumpScoreAt g.players g.current_player_index 10 }
      next_turn { scored with last_word := pyUpper text, last_activity_time := now }
    else
      { next_turn g with last_activity_time := now }
  else g


/-- The turn-index invariant on a bot.py wordchain session. -/
def wcInvB (g : GState) : Prop := g.players ≠ [] ∧ g.turnIndex < g.players.length

/-- The turn-index invariant on a games.py game: either a valid index into a
nonempty players list, or the freshly created shape (no players, index 0). -/
def wcInvP (g : PyGame) : Prop :=
  g.current_player_index < g.players.length ∨ (g.players = [] ∧ g.current_player_index = 0)

theorem wcFixIndex_lt (idx len : Nat) (h : 0 < len) : wcFixIndex idx len < len := by
  unfold wcFixIndex; split <;> omega

theorem idx_lt_of_getElem?_eq_some {ps : List BPlayer} {i : Nat} {p : BPlayer}
    (h : ps[i]? = some p) : i < ps.length := by
  by_contra hn
  rw [List.getElem?_eq_none (Nat.le_of_not_lt hn)] at h
  cases h

theorem wc_answer_accepted_inv {g g' : GState} {uid : Int} {t : List Char} {n : Int}
    (e : handle_wordchain_answer g uid t n = .accepted g') : wcInvB g' := by
  unfold handle_wordchain_answer at e
  split at e
  · exact absurd e (by simp)
  · split at e
    · exact absurd e (by simp)
    · split at e
      · exact absurd e (by simp)
      · rename_i cp hcp
        split at e
        · exact absurd e (by simp)
        · split at e
          · exact absurd e (by simp)
          · dsimp only [] at e
            split at e
            · cases e
              have hidx : g.turnIndex < g.players.length := idx_lt_of_getElem?_eq_some hcp
              refine ⟨?_, ?_⟩
              · show g.players ≠ []
                exact List.length_pos.mp (by omega)
              · show (g.turnIndex + 1) % g.players.length < g.players.length
                exact Nat.mod_lt _ (by omega)
            · split at e
              · exact absurd e (by simp)
              · exact absurd e (by simp)

theorem wc_answer_eliminated_inv {g g' : GState} {uid : Int} {t : List Char} {n : Int}
    (e : handle_wordchain_answer g uid t n = .eliminated g') : wcInvB g' := by
  unfold handle_wordchain_answer at e
  split at e
  · exact absurd e (by simp)
  · split at e
    · exact absurd e (by simp)
    · split at e
      · exact absurd e (by simp)
      · split at e
        · exact absurd e (by simp)
        · split at e
          · exact absurd e (by simp)
          · dsimp only [] at e
            split at e
            · exact absurd e (by simp)
            · split at e
              · exact absurd e (by simp)
              · cases e
                rename_i hlen
                refine ⟨?_, ?_⟩
                · show removedPlayers g.players uid ≠ []
                  exact List.length_pos.mp (by omega)
                · show wcFixIndex g.turnIndex (removedPlayers g.players uid).length
                      < (removedPlayers g.players uid).length
                  exact wcFixIndex_lt _ _ (by omega)

theorem turn_timer_some_inv {g g' : GState} {gt : String} {n : Int}
    (h : wcInvB g) (e : turn_timer (some g) gt n = some g') : wcInvB g' := by
  simp only [turn_timer] at e
  split at e
  · split at e
    · split at e
      · cases e; exact h
      · split at e
        · cases e
        · cases e
          rename_i hlen
          refine ⟨?_, ?_⟩
          · show g.players.eraseIdx g.turnIndex ≠ []
            exact List.length_pos.mp (by omega)
          · show wcFixIndex g.turnIndex (g.players.eraseIdx g.turnIndex).length
                < (g.players.eraseIdx g.turnIndex).length
            exact wcFixIndex_lt _ _ (by omega)
    · split at e
      · cases e; exact h
      · cases e; exact h
  · cases e; exact h

theorem add_player_invP (p : PyGame) (uid : Int) (un : String) (h : wcInvP p) :
    wcInvP (add_player p uid un).1 := by
  unfold add_player
  split
  · exact h
  · left
    show p.current_player_index < (p.players ++ [({ id := uid, username := un, score := 0 } : PyPlayer)]).length
    rw [List.length_append]
    rcases h with h | ⟨hp, hi⟩
    · simp; omega
    · rw [hp, hi]; simp

theorem next_turn_inv (p : PyGame) (h : p.players ≠ []) :
    (next_turn p).players ≠ [] ∧
      (next_turn p).current_player_index < (next_turn p).players.length := by
  unfold next_turn
  rw [if_neg (by simpa using h)]
  exact ⟨h, Nat.mod_lt _ (List.length_pos.mpr h)⟩

theorem get_current_player_some {p : PyGame} {cp : PyPlayer}
    (h : get_current_player p = some cp) :
    p.players ≠ [] ∧ p.current_player_index < p.players.length := by
  unfold get_current_player at h
  split at h
  · cases h
  · rename_i hne
    refine ⟨by simpa using hne, ?_⟩
    by_contra hn
    rw [List.getElem?_eq_none (Nat.le_of_not_lt hn)] at h
    cases h

theorem check_turn_timeout_inv {p p' : PyGame} {jid : String} {n : Int}
    (h : wcInvP p) (e : check_turn_timeout (some p) jid n = some p') :
    p'.players = p.players ∧ wcInvP p' := by
  simp only [check_turn_timeout] at e
  split at e
  · split at e
    · split at e
      · rename_i cp hcp
        cases e
        have hcp2 := get_current_player_some hcp
        refine ⟨?_, Or.inl ?_⟩
        · show (next_turn p).players = p.players
          unfold next_turn
          split <;> rfl
        · show (next_turn p).current_player_index < (next_turn p).players.length
          unfold next_turn
          rw [if_neg (by simpa using hcp2.1)]
          exact Nat.mod_lt _ (List.length_pos.mpr hcp2.1)
      · cases e
    · cases e; exact ⟨rfl, h⟩
  · cases e; exact ⟨rfl, h⟩


/-! ### Claim C1 -/

/-- A zero-player waiting bot.py session (any game type). -/
def c1BotWaiting : GState :=
  { gameType := "quiz", players := [], status := "waiting_for_players",
    currentRound := 0, lastActivity := 0, currentWord := [], turnIndex := 0,
    currentQuestion := .noneYet, answeredThisRound := false, secretNumber := 0,
    guessesMade := [] }

/-- A zero-player waiting games.py session. -/
def c1PyWaiting : PyGame := mkBaseGame "wordchaingame" "game-c1" 9 "A".data "A".data 0

/-- C1, counterexample.  The claim says a session whose join window expires
with no players is deleted without ever entering InProgress.  In bot.py's
`start_game_countdown` the status is set to in_progress and that snapshot is
persisted by `save_game_state_to_db` (line 433) before the zero-player check
deletes the session: the persisted snapshot list contains a state with status
in_progress and an empty players list. -/
theorem c1_join_expiry_counterexample :
    (start_game_countdown (some c1BotWaiting)).1
      = [{ c1BotWaiting with status := "in_progress" }] ∧
    ({ c1BotWaiting with status := "in_progress" }).status = "in_progress" ∧
    ({ c1BotWaiting with status := "in_progress" }).players = [] ∧
    (start_game_countdown (some c1BotWaiting)).2 = none :=
  ⟨rfl, rfl, rfl, rfl⟩

/-- C1, amended.  When the join window expires for a waiting session with no
players, the session is deleted and the game never starts: main.py's
`send_game_join_alerts` deletes it without ever marking it in_progress, while
bot.py's `start_game_countdown` also ends with the session deleted but first
writes (and persists) a transient in_progress state. -/
theorem c1_join_expiry_amended (g : PyGame) (b : GState) (now : Int)
    (hSt : g.status = "waiting_for_players") (hP : g.players = [])
    (hT : g.join_window_end_time ≤ now)
    (hSb : b.status = "waiting_for_players") (hPb : b.players = []) :
    send_game_join_alerts g now = none ∧
    (start_game_countdown (some b)).1 = [{ b with status := "in_progress" }] ∧
    (start_game_countdown (some b)).2 = none := by
  refine ⟨?_, ?_, ?_⟩
  · have h2 : g.join_window_end_time - now ≤ 0 := by omega
    simp [send_game_join_alerts, hSt, hP, h2]
  · simp [start_game_countdown, hSb, hPb]
  · simp [start_game_countdown, hSb, hPb]

/-- C1, witness for the amended theorem. -/
theorem c1_join_expiry_witness :
    (c1PyWaiting.status = "waiting_for_players" ∧ c1PyWaiting.players = [] ∧
      c1PyWaiting.join_window_end_time ≤ 61 ∧
      c1BotWaiting.status = "waiting_for_players" ∧ c1BotWaiting.players = []) ∧
    (send_game_join_alerts c1PyWaiting 61 = none ∧
      (start_game_countdown (some c1BotWaiting)).1
        = [{ c1BotWaiting with status := "in_progress" }] ∧
      (start_game_countdown (some c1BotWaiting)).2 = none) :=
  ⟨⟨rfl, rfl, by decide, rfl, rfl⟩,
   c1_join_expiry_amended c1PyWaiting c1BotWaiting 61 rfl rfl (by decide) rfl rfl⟩

/-! ### Claim C2 -/

/-- An in-progress bot.py wordchain session with current word "apple",
players A and B, turn at A. -/
def c2Session : GState :=
  { gameType := "wordchain", players := [⟨1, "A"⟩, ⟨2, "B"⟩], status := "in_progress",
    currentRound := 0, lastActivity := 0, currentWord := "apple".data, turnIndex := 0,
    currentQuestion := .noneYet, answeredThisRound := false, secretNumber := 0,
    guessesMade := [] }

/-- C2, counterexample.  The claim says a wordchain answer is accepted iff it
starts with the last letter of the current word, has length above 1, is
alphabetic, AND matches the expected target word for the step.  bot.py's
handler performs no target-word comparison: with current word "apple" and
target word "eagle", the answer "egg" is accepted by the code although the
claimed condition is false for it. -/
theorem c2_wordchain_accept_counterexample :
    isAccepted (handle_wordchain_answer c2Session 1 "egg".data 5) = true ∧
    specWordchainAccept "apple".data "eagle".data "egg".data = false :=
  ⟨rfl, rfl⟩

/-- C2, amended.  In bot.py, the answer submitted by the player at the turn
index is accepted iff its first letter equals the last letter of the current
word, its length exceeds 1 and it is entirely alphabetic — with no
target-word condition.  (games.py's WordChainGame.is_answer_correct instead
requires equality with the stored target and omits the length and alphabet
checks; bot.py's handler is the one wired to live wordchain sessions.) -/
theorem c2_wordchain_accept_amended (g : GState) (uid : Int) (text : List Char)
    (now : Int) (cp : BPlayer)
    (hType : g.gameType = "wordchain") (hSt : g.status = "in_progress")
    (hCp : g.players[g.turnIndex]? = some cp) (hUid : uid = cp.userId) :
    isAccepted (handle_wordchain_answer g uid text now)
      = botWordchainAccept g.currentWord text := by
  have hne : g.players.isEmpty = false := by
    cases hp : g.players
    · rw [hp] at hCp; simp at hCp
    · simp [hp]
  unfold handle_wordchain_answer botWordchainAccept
  rw [hType, hSt, hne, hCp, hUid]
  simp only [bne_self_eq_false, Bool.or_self, Bool.false_eq_true, if_false]
  cases hLast : g.currentWord.getLast? with
  | none => rfl
  | some c =>
    by_cases hc : (pyStartsWithChar (pyLower (pyStrip text)) c.toLower
        && decide ((pyLower (pyStrip text)).length > 1)
        && pyIsAlpha (pyLower (pyStrip text))) = true
    · simp only [hc]
      rfl
    · have hc2 : (pyStartsWithChar (pyLower (pyStrip text)) c.toLower
          && decide ((pyLower (pyStrip text)).length > 1)
          && pyIsAlpha (pyLower (pyStrip text))) = false := by simpa using hc
      simp only [hc2, if_false, Bool.false_eq_true]
      split <;> rfl

/-- C2, witness for the amended theorem: the accepted answer "ear" after
"apple". -/
theorem c2_wordchain_accept_witness :
    (c2Session.gameType = "wordchain" ∧ c2Session.status = "in_progress" ∧
      c2Session.players[c2Session.turnIndex]? = some ⟨1, "A"⟩ ∧
      (1 : Int) = (BPlayer.mk 1 "A").userId) ∧
    isAccepted (handle_wordchain_answer c2Session 1 "ear".data 5)
      = botWordchainAccept c2Session.currentWord "ear".data :=
  ⟨⟨rfl, rfl, rfl, rfl⟩,
   c2_wordchain_accept_amended c2Session 1 "ear".data 5 ⟨1, "A"⟩ rfl rfl rfl rfl⟩


/-! ### Claim C3 -/

/-- An in-progress bot.py number-guessing session: secret 42, player 1 with
no guesses yet. -/
def c3Session : GState :=
  { gameType := "number_guessing", players := [⟨1, "A"⟩], status := "in_progress",
    currentRound := 0, lastActivity := 0, currentWord := [], turnIndex := 0,
    currentQuestion := .noneYet, answeredThisRound := false, secretNumber := 42,
    guessesMade := [] }

/-- C3: when a joined player's in-range guess equals the secret number, the
awarded score is exactly max(10, 100 - 5*attempts) where attempts counts that
user's in-range numeric guesses including the winning one, and the session is
deleted; attempts = 1 (no prior guess) yields 95 and any attempts at least 18
yields 10. -/
theorem c3_number_guess_score
    (g g0 : GState) (uid uid0 guess guess0 : Int) (now now0 : Int) (attempts : Nat)
    (hType : g.gameType = "number_guessing") (hSt : g.status = "in_progress")
    (hP : isPlayerIn g.players uid = true)
    (hLo : 1 ≤ guess) (hHi : guess ≤ 100) (hWin : guess = g.secretNumber)
    (hType0 : g0.gameType = "number_guessing") (hSt0 : g0.status = "in_progress")
    (hP0 : isPlayerIn g0.players uid0 = true)
    (hLo0 : 1 ≤ guess0) (hHi0 : guess0 ≤ 100) (hWin0 : guess0 = g0.secretNumber)
    (hZero : lookupCount g0.guessesMade uid0 = 0)
    (hA : 18 ≤ attempts) :
    handle_number_guess g uid (some guess) now
      = (none, some (max 10 (100 - ((lookupCount g.guessesMade uid + 1 : Nat) : Int) * 5))) ∧
    handle_number_guess g0 uid0 (some guess0) now0 = (none, some 95) ∧
    max 10 (100 - (attempts : Int) * 5) = 10 := by
  refine ⟨?_, ?_, ?_⟩
  · simp only [handle_number_guess, hType, hSt, hP, bne_self_eq_false, Bool.or_self,
      Bool.false_eq_true, if_false, Bool.not_true]
    rw [if_neg (by omega : ¬¬(1 ≤ guess ∧ guess ≤ 100))]
    simp [hWin]
  · simp only [handle_number_guess, hType0, hSt0, hP0, bne_self_eq_false, Bool.or_self,
      Bool.false_eq_true, if_false, Bool.not_true]
    rw [if_neg (by omega : ¬¬(1 ≤ guess0 ∧ guess0 ≤ 100))]
    simp [hWin0, hZero]
  · rw [max_eq_left (by omega : (100 - (attempts : Int) * 5) ≤ 10)]

/-- C3, witness: player 1 wins with the first guess in `c3Session` (score
95), and the floor value at attempts = 18. -/
theorem c3_number_guess_score_witness :
    (c3Session.gameType = "number_guessing" ∧ c3Session.status = "in_progress" ∧
      isPlayerIn c3Session.players 1 = true ∧ (1 : Int) ≤ 42 ∧ (42 : Int) ≤ 100 ∧
      (42 : Int) = c3Session.secretNumber ∧ lookupCount c3Session.guessesMade 1 = 0 ∧
      (18 : Nat) ≤ 18) ∧
    (handle_number_guess c3Session 1 (some 42) 7
        = (none, some (max 10 (100 - ((lookupCount c3Session.guessesMade 1 + 1 : Nat) : Int) * 5))) ∧
      handle_number_guess c3Session 1 (some 42) 7 = (none, some 95) ∧
      max 10 (100 - ((18 : Nat) : Int) * 5) = 10) :=
  ⟨⟨rfl, rfl, rfl, by decide, by decide, rfl, rfl, le_refl 18⟩,
   c3_number_guess_score c3Session c3Session 1 1 42 42 7 7 18
     rfl rfl rfl (by decide) (by decide) rfl
     rfl rfl rfl (by decide) (by decide) rfl rfl (le_refl 18)⟩

/-! ### Claim C4 -/

/-- An in-progress games.py wordchain session with two players, as it would
be snapshotted by `save_game_state`. -/
def c4Game : PyGame :=
  { mkBaseGame "wordchaingame" "game-c4" 5 "APPLE".data "APPLE".data 0 with
      players := [⟨1, "A", 0⟩, ⟨2, "B", 0⟩], status := "in_progress" }

/-- C4: the claim says snapshot followed by load reproduces an identical
session.  The code cannot: `get_game_data_for_db` stores `game_type` as the
lowercased class name ("wordchaingame"), which `create_game` does not
recognise, so the startup reload loop of `run_bot` reconstructs no session at
all (and the record also lacks the `join_window_end_time`, `turn_timeout` and
`last_word` fields, which would be reset to defaults even if an instance were
built).  Evaluated at a concrete in-progress wordchain session: the round
trip yields nothing instead of the original session. -/
theorem c4_snapshot_load_lost :
    (get_game_data_for_db c4Game).game_type = "wordchaingame" ∧
    create_game "wordchaingame" "game-c4" 5 "APPLE".data "APPLE".data 0 = none ∧
    load_game (get_game_data_for_db c4Game) 0 = none ∧
    load_game (get_game_data_for_db c4Game) 0 ≠ some c4Game := by
  refine ⟨rfl, rfl, rfl, ?_⟩
  intro h
  rw [show load_game (get_game_data_for_db c4Game) 0 = none from rfl] at h
  exact Option.noConfusion h


/-! ### Claim C5 -/

/-- No player of the filtered list carries the removed user id. -/
theorem removed_not_in (ps : List BPlayer) (uid : Int) :
    isPlayerIn (removedPlayers ps uid) uid = false := by
  unfold isPlayerIn removedPlayers
  refine List.any_eq_false.mpr ?_
  intro p hp
  rw [List.mem_filter] at hp
  simpa using hp.2

/-- An in-progress main.py wordchain session: players A and B, target word
APPLE, no word played yet, turn at A. -/
def c5MainGame : PyGame :=
  { game_class := "wordchaingame", game_id := "game-c5", group_id := 7,
    question := "APPLE".data, answer := "APPLE".data,
    players := [⟨1, "A", 0⟩, ⟨2, "B", 0⟩], current_player_index := 0,
    status := "in_progress", start_time := 0, last_activity_time := 0,
    turn_timeout := 60, join_window_end_time := 60, last_word := [] }

/-- C5, counterexample.  The claim says an incorrect wordchain answer by the
current player removes that player.  In main.py's `handle_message`, player A
answering "EGG" (incorrect) merely passes the turn: the players list is
unchanged and A is still in it. -/
theorem c5_elimination_counterexample :
    wc_is_answer_correct c5MainGame "EGG".data = false ∧
    handle_message_wc c5MainGame 1 "EGG".data 10
      = { c5MainGame with current_player_index := 1, last_activity_time := 10 } ∧
    (handle_message_wc c5MainGame 1 "EGG".data 10).players = c5MainGame.players ∧
    (handle_message_wc c5MainGame 1 "EGG".data 10).players.any (fun p => p.id == 1)
      = true :=
  ⟨rfl, rfl, rfl, rfl⟩

/-- C5, amended.  In bot.py's engine the claim holds: an incorrect answer by
the current player removes every entry of that player from the list and the
turn index is fixed up to stay in bounds; a turn timeout pops the current
player; in both paths the session is deleted when fewer than 2 players
remain.  In main.py's engine (counterexample) an incorrect answer or timeout
merely advances the turn without eliminating anyone. -/
theorem c5_elimination_amended
    (gEnd : GState) (uidE : Int) (textE : List Char) (nE : Int) (cpE : BPlayer) (cE : Char)
    (gCont : GState) (uidC : Int) (textC : List Char) (nC : Int) (cpC : BPlayer) (cC : Char)
    (gTEnd gTCont : GState) (nTE nTC : Int)
    (hTy1 : gEnd.gameType = "wordchain") (hS1 : gEnd.status = "in_progress")
    (hCp1 : gEnd.players[gEnd.turnIndex]? = some cpE) (hU1 : uidE = cpE.userId)
    (hL1 : gEnd.currentWord.getLast? = some cE)
    (hR1 : botWordchainAccept gEnd.currentWord textE = false)
    (hFew : (removedPlayers gEnd.players uidE).length < 2)
    (hTy2 : gCont.gameType = "wordchain") (hS2 : gCont.status = "in_progress")
    (hCp2 : gCont.players[gCont.turnIndex]? = some cpC) (hU2 : uidC = cpC.userId)
    (hL2 : gCont.currentWord.getLast? = some cC)
    (hR2 : botWordchainAccept gCont.currentWord textC = false)
    (hMany : 2 ≤ (removedPlayers gCont.players uidC).length)
    (hTy3 : gTEnd.gameType = "wordchain") (hS3 : gTEnd.status = "in_progress")
    (hNe3 : gTEnd.players ≠ [])
    (hFew3 : (gTEnd.players.eraseIdx gTEnd.turnIndex).length < 2)
    (hTy4 : gTCont.gameType = "wordchain") (hS4 : gTCont.status = "in_progress")
    (hNe4 : gTCont.players ≠ [])
    (hMany4 : 2 ≤ (gTCont.players.eraseIdx gTCont.turnIndex).length) :
    handle_wordchain_answer gEnd uidE textE nE = .ended ∧
    handle_wordchain_answer gCont uidC textC nC
      = .eliminated { gCont with
          players := removedPlayers gCont.players uidC,
          turnIndex := wcFixIndex gCont.turnIndex (removedPlayers gCont.players uidC).length,
          lastActivity := nC } ∧
    isPlayerIn (removedPlayers gCont.players uidC) uidC = false ∧
    wcFixIndex gCont.turnIndex (removedPlayers gCont.players uidC).length
      < (removedPlayers gCont.players uidC).length ∧
    turn_timer (some gTEnd) "wordchain" nTE = none ∧
    turn_timer (some gTCont) "wordchain" nTC
      = some { gTCont with
          players := gTCont.players.eraseIdx gTCont.turnIndex,
          turnIndex := wcFixIndex gTCont.turnIndex (gTCont.players.eraseIdx gTCont.turnIndex).length,
          lastActivity := nTC } := by
  have hne1 : gEnd.players.isEmpty = false := by
    cases hp : gEnd.players
    · rw [hp] at hCp1; simp at hCp1
    · simp [hp]
  have hne2 : gCont.players.isEmpty = false := by
    cases hp : gCont.players
    · rw [hp] at hCp2; simp at hCp2
    · simp [hp]
  simp only [botWordchainAccept, hL1] at hR1
  simp only [botWordchainAccept, hL2] at hR2
  subst hU1
  subst hU2
  refine ⟨?_, ?_, removed_not_in _ _, wcFixIndex_lt _ _ (by omega), ?_, ?_⟩
  · unfold handle_wordchain_answer
    rw [hTy1, hS1, hne1, hCp1, hL1]
    simp only [bne_self_eq_false, Bool.or_self, Bool.false_eq_true, if_false]
    simp only [hR1, Bool.false_eq_true, if_false]
    rw [if_pos hFew]
  · unfold handle_wordchain_answer
    rw [hTy2, hS2, hne2, hCp2, hL2]
    simp only [bne_self_eq_false, Bool.or_self, Bool.false_eq_true, if_false]
    simp only [hR2, Bool.false_eq_true, if_false]
    rw [if_neg (by omega : ¬(removedPlayers gCont.players cpC.userId).length < 2)]
  · have hE : gTEnd.players.isEmpty = false := by simpa using hNe3
    simp only [turn_timer]
    rw [hS3, hTy3]
    simp only [hE, Bool.false_eq_true, if_false]
    simp [hFew3]
  · have hE : gTCont.players.isEmpty = false := by simpa using hNe4
    simp only [turn_timer]
    rw [hS4, hTy4]
    simp only [hE, Bool.false_eq_true, if_false]
    simp only [beq_self_eq_true, Bool.and_self, if_true, if_pos]
    rw [if_neg (by omega : ¬(gTCont.players.eraseIdx gTCont.turnIndex).length < 2)]

/-- C5, scenario states for the witness: elimination that ends the session,
elimination that continues, timeout that ends, timeout that continues. -/
def c5BotEnd : GState :=
  { gameType := "wordchain", players := [⟨1, "A"⟩, ⟨2, "B"⟩], status := "in_progress",
    currentRound := 0, lastActivity := 0, currentWord := "apple".data, turnIndex := 0,
    currentQuestion := .noneYet, answeredThisRound := false, secretNumber := 0,
    guessesMade := [] }

def c5BotCont : GState := { c5BotEnd with players := [⟨1, "A"⟩, ⟨2, "B"⟩, ⟨3, "C"⟩] }

/-- C5, witness for the amended theorem. -/
theorem c5_elimination_witness :
    (c5BotEnd.gameType = "wordchain" ∧ c5BotEnd.status = "in_progress" ∧
      c5BotEnd.players[c5BotEnd.turnIndex]? = some ⟨1, "A"⟩ ∧
      c5BotEnd.currentWord.getLast? = some 'e' ∧
      botWordchainAccept c5BotEnd.currentWord "xx".data = false ∧
      (removedPlayers c5BotEnd.players 1).length < 2 ∧
      2 ≤ (removedPlayers c5BotCont.players 1).length ∧
      c5BotEnd.players ≠ [] ∧
      (c5BotEnd.players.eraseIdx c5BotEnd.turnIndex).length < 2 ∧
      2 ≤ (c5BotCont.players.eraseIdx c5BotCont.turnIndex).length) ∧
    (handle_wordchain_answer c5BotEnd 1 "xx".data 4 = .ended ∧
      handle_wordchain_answer c5BotCont 1 "xx".data 4
        = .eliminated { c5BotCont with
            players := removedPlayers c5BotCont.players 1,
            turnIndex := wcFixIndex c5BotCont.turnIndex (removedPlayers c5BotCont.players 1).length,
            lastActivity := 4 } ∧
      isPlayerIn (removedPlayers c5BotCont.players 1) 1 = false ∧
      wcFixIndex c5BotCont.turnIndex (removedPlayers c5BotCont.players 1).length
        < (removedPlayers c5BotCont.players 1).length ∧
      turn_timer (some c5BotEnd) "wordchain" 4 = none ∧
      turn_timer (some c5BotCont) "wordchain" 4
        = some { c5BotCont with
            players := c5BotCont.players.eraseIdx c5BotCont.turnIndex,
            turnIndex := wcFixIndex c5BotCont.turnIndex (c5BotCont.players.eraseIdx c5BotCont.turnIndex).length,
            lastActivity := 4 }) :=
  ⟨⟨rfl, rfl, rfl, rfl, by decide, by decide, by decide, by decide, by decide, by decide⟩,
   c5_elimination_amended c5BotEnd 1 "xx".data 4 ⟨1, "A"⟩ 'e'
     c5BotCont 1 "xx".data 4 ⟨1, "A"⟩ 'e' c5BotEnd c5BotCont 4 4
     rfl rfl rfl rfl rfl (by decide) (by decide)
     rfl rfl rfl rfl rfl (by decide) (by decide)
     rfl rfl (by decide) (by decide)
     rfl rfl (by decide) (by decide)⟩

/-! ### Claim C6 -/

/-- A waiting bot.py session in which user 1 has already joined as "Alice". -/
def c6BotSession : GState :=
  { gameType := "quiz", players := [⟨1, "Alice"⟩], status := "waiting_for_players",
    currentRound := 0, lastActivity := 0, currentWord := [], turnIndex := 0,
    currentQuestion := .noneYet, answeredThisRound := false, secretNumber := 0,
    guessesMade := [] }

/-- A waiting games.py session in which user 1 has already joined. -/
def c6PyGame : PyGame :=
  { mkBaseGame "guessinggame" "game-c6" 3 "H".data "H".data 0 with
      players := [⟨1, "A", 0⟩] }

/-- C6, counterexample.  The claim says a join by a userId already present
leaves players unchanged regardless of the displayName supplied.  bot.py's
join-button handler tests membership of the whole {user_id, username} record:
user 1, already joined as "Alice", joining again as "Alicia" is appended a
second time. -/
theorem c6_join_idempotent_counterexample :
    isPlayerIn c6BotSession.players 1 = true ∧
    (bot_join c6BotSession 1 "Alicia").1.players = [⟨1, "Alice"⟩, ⟨1, "Alicia"⟩] ∧
    (bot_join c6BotSession 1 "Alicia").2 = true :=
  ⟨rfl, rfl, rfl⟩

/-- C6, amended.  games.py's `add_player` is idempotent keyed by userId
alone: a join by a present userId leaves the list unchanged and reports
failure, a join by a new userId appends exactly one entry at the end.
bot.py's join button is idempotent only for an exactly matching
(userId, displayName) record (counterexample: a changed display name is
appended again). -/
theorem c6_join_idempotent_amended
    (g : PyGame) (uid : Int) (un : String)
    (g2 : PyGame) (uid2 : Int) (un2 : String)
    (b : GState) (uidb : Int) (unb : String)
    (hIn : g.players.any (fun p => p.id == uid) = true)
    (hOut : g2.players.any (fun p => p.id == uid2) = false)
    (hW : b.status = "waiting_for_players")
    (hInB : b.players.any (fun p => p.userId == uidb && p.username == unb) = true) :
    add_player g uid un = (g, false) ∧
    add_player g2 uid2 un2
      = ({ g2 with players := g2.players ++ [{ id := uid2, username := un2, score := 0 }] },
         true) ∧
    bot_join b uidb unb = (b, false) := by
  refine ⟨?_, ?_, ?_⟩
  · unfold add_player
    rw [if_pos hIn]
  · unfold add_player
    rw [if_neg (by simp [hOut])]
  · unfold bot_join
    rw [hW]
    simp only [bne_self_eq_false, Bool.false_eq_true, if_false]
    rw [if_pos hInB]

/-- C6, witness for the amended theorem. -/
theorem c6_join_idempotent_witness :
    (c6PyGame.players.any (fun p => p.id == 1) = true ∧
      c6PyGame.players.any (fun p => p.id == 2) = false ∧
      c6BotSession.status = "waiting_for_players" ∧
      c6BotSession.players.any (fun p => p.userId == 1 && p.username == "Alice") = true) ∧
    (add_player c6PyGame 1 "A" = (c6PyGame, false) ∧
      add_player c6PyGame 2 "B"
        = ({ c6PyGame with players := c6PyGame.players ++ [{ id := 2, username := "B", score := 0 }] },
           true) ∧
      bot_join c6BotSession 1 "Alice" = (c6BotSession, false)) :=
  ⟨⟨rfl, rfl, rfl, rfl⟩,
   c6_join_idempotent_amended c6PyGame 1 "A" c6PyGame 2 "B" c6BotSession 1 "Alice"
     rfl rfl rfl rfl⟩


/-! ### Claim C7 -/

/-- C7: a start-game request for a room that already holds an active session
fails with the conflict message and changes no state — the map, and with it
every field of the existing session, is returned unchanged, and no new
session is created; both engines guard this way, and sessions stay unique
per room because `active_games` is keyed by the room id. -/
theorem c7_create_conflict
    (m : Int → Option GState) (cid : Int) (gt : String) (now : Int) (g : GState)
    (m2 : Int → Option PyGame) (cid2 : Int) (gt2 : String)
    (content : Option (List Char × List Char)) (gid : String) (now2 : Int) (p : PyGame)
    (h : m cid = some g) (h2 : m2 cid2 = some p) :
    bot_start_game m cid gt now = (m, true) ∧
    start_new_game m2 cid2 gt2 content gid now2 = (m2, true) := by
  constructor
  · unfold bot_start_game
    rw [h]
  · unfold start_new_game
    rw [h2]

/-- C7, concrete maps for the witness. -/
def c7BotMap : Int → Option GState :=
  fun c => if c == 5 then some c1BotWaiting else none

def c7PyMap : Int → Option PyGame :=
  fun c => if c == 5 then some c1PyWaiting else none

/-- C7, witness for the conflict theorem. -/
theorem c7_create_conflict_witness :
    (c7BotMap 5 = some c1BotWaiting ∧ c7PyMap 5 = some c1PyWaiting) ∧
    (bot_start_game c7BotMap 5 "quiz" 0 = (c7BotMap, true) ∧
      start_new_game c7PyMap 5 "wordchain" none "game-x" 0 = (c7PyMap, true)) :=
  ⟨⟨rfl, rfl⟩,
   c7_create_conflict c7BotMap 5 "quiz" 0 c1BotWaiting
     c7PyMap 5 "wordchain" none "game-x" 0 c1PyWaiting rfl rfl⟩

/-! ### Claim C8 -/

/-- A fresh in-progress main.py session that replaced an older one in the
same chat (its game id differs from the old job's id), with its turn-timeout
condition elapsed. -/
def c8NewGame : PyGame :=
  { game_class := "wordchaingame", game_id := "new-uuid", group_id := 7,
    question := "APPLE".data, answer := "APPLE".data,
    players := [⟨1, "A", 0⟩, ⟨2, "B", 0⟩], current_player_index := 0,
    status := "in_progress", start_time := 0, last_activity_time := 0,
    turn_timeout := 60, join_window_end_time := 60, last_word := [] }

/-- C8, counterexample.  The claim says a timer callback firing for a
session that no longer exists mutates no session state.  main.py's
`check_turn_timeout` identifies the session by chat id only and never
compares the job's game id with the session's: a firing armed for the
departed session "old-uuid" finds the replacement session "new-uuid" in the
chat and advances its turn. -/
theorem c8_stale_timer_counterexample :
    c8NewGame.game_id ≠ "old-uuid" ∧
    check_turn_timeout (some c8NewGame) "old-uuid" 100
      = some { c8NewGame with current_player_index := 1, last_activity_time := 100 } ∧
    ({ c8NewGame with current_player_index := 1, last_activity_time := 100 } : PyGame)
      ≠ c8NewGame := by
  refine ⟨by decide, rfl, by decide⟩

/-- C8, amended.  A timer callback firing for a chat whose session is gone,
or whose session is no longer in the status (and, in bot.py, of the game
type) that justified the timer, is a silent no-op in both engines; but the
staleness check is keyed by chat alone, so a firing whose own session was
replaced by a newer one in the same chat can still mutate the new session
(counterexample). -/
theorem c8_stale_timer_amended
    (g : GState) (gt : String) (n : Int)
    (p : PyGame) (jid jid2 : String) (m i : Int)
    (hB : g.status ≠ "in_progress" ∨ g.gameType ≠ gt)
    (hP : p.status ≠ "in_progress") :
    turn_timer none gt n = none ∧
    turn_timer (some g) gt n = some g ∧
    check_turn_timeout none jid m = none ∧
    check_turn_timeout (some p) jid2 i = some p := by
  refine ⟨rfl, ?_, rfl, ?_⟩
  · have hc : (g.status == "in_progress" && g.gameType == gt) = false := by
      rcases hB with h | h <;> simp [h]
    simp only [turn_timer, hc, Bool.false_eq_true, if_false]
  · have hc : (p.status == "in_progress") = false := by simp [hP]
    simp only [check_turn_timeout, hc, Bool.false_eq_true, if_false]

/-- C8, session states for the amended theorem's witness. -/
def c8BotEnded : GState :=
  { gameType := "wordchain", players := [⟨1, "A"⟩], status := "waiting_for_players",
    currentRound := 0, lastActivity := 0, currentWord := "apple".data, turnIndex := 0,
    currentQuestion := .noneYet, answeredThisRound := false, secretNumber := 0,
    guessesMade := [] }

def c8PyWaiting : PyGame := { c8NewGame with status := "waiting_for_players" }

/-- C8, witness for the amended theorem. -/
theorem c8_stale_timer_witness :
    ((c8BotEnded.status ≠ "in_progress" ∨ c8BotEnded.gameType ≠ "wordchain") ∧
      c8PyWaiting.status ≠ "in_progress") ∧
    (turn_timer none "wordchain" 9 = none ∧
      turn_timer (some c8BotEnded) "wordchain" 9 = some c8BotEnded ∧
      check_turn_timeout none "job-1" 9 = none ∧
      check_turn_timeout (some c8PyWaiting) "job-2" 9 = some c8PyWaiting) :=
  ⟨⟨by decide, by decide⟩,
   c8_stale_timer_amended c8BotEnded "wordchain" 9 c8PyWaiting "job-1" "job-2" 9 9
     (by decide) (by decide)⟩


/-! ### Claim C9 -/

/-- C9: for every non-terminal turn-based session, every operation — join
(games.py add_player), correct answer and elimination (bot.py wordchain
answer handler), turn timeout (bot.py turn_timer and main.py
check_turn_timeout) and turn advance (games.py next_turn) — leaves the
current-player index a valid index into a non-empty players list whenever
the session survives the operation. -/
theorem c9_turn_index_invariant
    (g1 g1' : GState) (uid1 : Int) (t1 : List Char) (n1 : Int)
    (g2 g2' : GState) (uid2 : Int) (t2 : List Char) (n2 : Int)
    (g3 g3' : GState) (gt3 : String) (n3 : Int)
    (p4 : PyGame) (uid4 : Int) (un4 : String)
    (p5 : PyGame)
    (p6 p6' : PyGame) (jid6 : String) (n6 : Int)
    (_h1 : wcInvB g1) (e1 : handle_wordchain_answer g1 uid1 t1 n1 = .accepted g1')
    (_h2 : wcInvB g2) (e2 : handle_wordchain_answer g2 uid2 t2 n2 = .eliminated g2')
    (h3 : wcInvB g3) (e3 : turn_timer (some g3) gt3 n3 = some g3')
    (h4 : wcInvP p4)
    (h5 : p5.players ≠ [])
    (h6 : wcInvP p6) (e6 : check_turn_timeout (some p6) jid6 n6 = some p6') :
    wcInvB g1' ∧ wcInvB g2' ∧ wcInvB g3' ∧
    wcInvP (add_player p4 uid4 un4).1 ∧
    ((next_turn p5).players ≠ [] ∧
      (next_turn p5).current_player_index < (next_turn p5).players.length) ∧
    (p6'.players = p6.players ∧ wcInvP p6') :=
  ⟨wc_answer_accepted_inv e1, wc_answer_eliminated_inv e2, turn_timer_some_inv h3 e3,
   add_player_invP p4 uid4 un4 h4, next_turn_inv p5 h5, check_turn_timeout_inv h6 e6⟩

/-- C9, concrete sessions for the witness. -/
def c9BotA : GState :=
  { gameType := "wordchain", players := [⟨1, "A"⟩, ⟨2, "B"⟩], status := "in_progress",
    currentRound := 0, lastActivity := 0, currentWord := "apple".data, turnIndex := 0,
    currentQuestion := .noneYet, answeredThisRound := false, secretNumber := 0,
    guessesMade := [] }

def c9BotA' : GState :=
  { c9BotA with currentWord := "egg".data, turnIndex := 1, lastActivity := 5 }

def c9BotB : GState := { c9BotA with players := [⟨1, "A"⟩, ⟨2, "B"⟩, ⟨3, "C"⟩] }

def c9BotB' : GState :=
  { c9BotB with players := [⟨2, "B"⟩, ⟨3, "C"⟩], turnIndex := 0, lastActivity := 5 }

def c9PyJoin : PyGame := mkBaseGame "wordchaingame" "game-c9" 4 "APPLE".data "APPLE".data 0

def c9PyTurn : PyGame :=
  { c9PyJoin with players := [⟨1, "A", 0⟩, ⟨2, "B", 0⟩], status := "in_progress" }

def c9PyTurn' : PyGame :=
  { c9PyTurn with current_player_index := 1, last_activity_time := 100 }

/-- C9, witness for the invariant theorem. -/
theorem c9_turn_index_invariant_witness :
    (wcInvB c9BotA ∧ handle_wordchain_answer c9BotA 1 "egg".data 5 = .accepted c9BotA' ∧
      wcInvB c9BotB ∧ handle_wordchain_answer c9BotB 1 "xx".data 5 = .eliminated c9BotB' ∧
      turn_timer (some c9BotB) "wordchain" 5 = some c9BotB' ∧
      wcInvP c9PyJoin ∧ c9PyTurn.players ≠ [] ∧ wcInvP c9PyTurn ∧
      check_turn_timeout (some c9PyTurn) "job-c9" 100 = some c9PyTurn') ∧
    (wcInvB c9BotA' ∧ wcInvB c9BotB' ∧ wcInvB c9BotB' ∧
      wcInvP (add_player c9PyJoin 7 "N").1 ∧
      ((next_turn c9PyTurn).players ≠ [] ∧
        (next_turn c9PyTurn).current_player_index < (next_turn c9PyTurn).players.length) ∧
      (c9PyTurn'.players = c9PyTurn.players ∧ wcInvP c9PyTurn')) :=
  ⟨⟨⟨by decide, by decide⟩, rfl, ⟨by decide, by decide⟩, rfl, rfl,
    Or.inr ⟨rfl, rfl⟩, by decide, Or.inl (by decide), rfl⟩,
   c9_turn_index_invariant c9BotA c9BotA' 1 "egg".data 5 c9BotB c9BotB' 1 "xx".data 5
     c9BotB c9BotB' "wordchain" 5 c9PyJoin 7 "N" c9PyTurn c9PyTurn c9PyTurn' "job-c9" 100
     ⟨by decide, by decide⟩ rfl ⟨by decide, by decide⟩ rfl ⟨by decide, by decide⟩ rfl
     (Or.inr ⟨rfl, rfl⟩) (by decide) (Or.inl (by decide)) rfl⟩

/-! ### Claim C10 -/

/-- C10: processing one poll-vote answer in bot.py mutates at most one
session.  Either every session is returned unchanged, or the games list
splits around the first session matching the vote's poll id (every earlier
session does not match), that session has the voter among its players, its
round is not yet answered, the vote selects the correct option, and exactly
that session is replaced — with only `answered_this_round` and the activity
time changed — while every other session is returned identical. -/
theorem c10_poll_answer_frame (games : List (Int × GState)) (uid : Int) (pid : Nat)
    (opts : List Nat) (now : Int) :
    handle_poll_answer games uid pid opts now = games ∨
    ∃ pre cid g post,
      games = pre ++ (cid, g) :: post ∧
      (∀ e ∈ pre, pollMatches e.2 pid = false) ∧
      pollMatches g pid = true ∧
      isPlayerIn g.players uid = true ∧
      g.answeredThisRound = false ∧
      (∃ p0 c0, g.currentQuestion = .poll p0 c0 ∧ opts.contains c0 = true) ∧
      handle_poll_answer games uid pid opts now
        = pre ++ (cid, { g with answeredThisRound := true, lastActivity := now }) :: post := by
  induction games with
  | nil => left; rfl
  | cons hd rest ih =>
    obtain ⟨cid, g⟩ := hd
    by_cases hm : pollMatches g pid = true
    · by_cases hp : isPlayerIn g.players uid = true
      · by_cases ha : g.answeredThisRound = true
        · left
          simp [handle_poll_answer, hm, hp, ha]
        · have ha2 : g.answeredThisRound = false := by simpa using ha
          cases hq : g.currentQuestion with
          | noneYet => exact absurd hm (by simp [pollMatches, hq])
          | text a => exact absurd hm (by simp [pollMatches, hq])
          | poll p0 c0 =>
            by_cases hc : opts.contains c0 = true
            · right
              have hmem : c0 ∈ opts := by simpa using hc
              refine ⟨[], cid, g, rest, rfl, by simp, hm, hp, ha2, ⟨p0, c0, hq, hc⟩, ?_⟩
              simp [handle_poll_answer, hm, hp, ha2, hq, hc, hmem]
            · left
              have hc2 : opts.contains c0 = false := by simpa using hc
              have hmem2 : c0 ∉ opts := by simpa using hc2
              simp [handle_poll_answer, hm, hp, ha2, hq, hc2, hmem2]
      · left
        have hp2 : isPlayerIn g.players uid = false := by simpa using hp
        simp [handle_poll_answer, hm, hp2]
    · have hm2 : pollMatches g pid = false := by simpa using hm
      rcases ih with hsame | ⟨pre, cid2, g2, post, hEq, hPre, hMatch, hPl, hAns, hOpt, hRes⟩
      · left
        simp [handle_poll_answer, hm2, hsame]
      · right
        refine ⟨(cid, g) :: pre, cid2, g2, post, by simp [hEq], ?_, hMatch, hPl, hAns, hOpt, ?_⟩
        · intro e he
          rcases List.mem_cons.mp he with rfl | hmem
          · exact hm2
          · exact hPre e hmem
        · simp [handle_poll_answer, hm2, hRes]
